import Mathlib

/-!
Shallow embedding of the simulation core of the hackharvard-25 repository
(frontend/src/app/main.js, frontend/src/app/Wave.js, frontend/src/app/objects/Water.js).

Numbers are modelled over `ℚ` (the JavaScript sources use IEEE doubles, but every
constant appearing in the claims is an exact decimal, so the rational model is exact
on all inputs considered here).  Calls to `Math.random()` become explicit rational
parameters.  The physics engine's square root in `damageBuilding`'s force scale is
irrational in general; the embedding therefore takes the computed scale
`forceScale = 2 * |impactVelocity| / sqrt(storedMass)` as an explicit parameter,
which is nonnegative for every actual input (a norm divided by a positive root).
-/

namespace SimulWave

/-- A 3-component vector over ℚ, mirroring `CANNON.Vec3` / `THREE.Vector3`. -/
structure Vec3 where
  x : ℚ
  y : ℚ
  z : ℚ
deriving DecidableEq, Repr, Inhabited

/-- Cannon body type: buildings start `KINEMATIC` and become `DYNAMIC` on activation. -/
inductive BodyType where
  | KINEMATIC : BodyType
  | DYNAMIC : BodyType
deriving DecidableEq, Repr

/-- The three wireframe debug colors set by `damageBuilding`'s health-ratio bands. -/
inductive WireColor where
  | green : WireColor
  | yellow : WireColor
  | red : WireColor
deriving DecidableEq, Repr

/-- `Wave` from `Wave.js`.  All fields of the JS object; `stoppedgrowing` is set to
`-1` by the constructor and never read. -/
structure Wave where
  size : ℚ
  x : ℚ
  z : ℚ
  maxxSpeed : ℚ
  xspeed : ℚ
  maxzSpeed : ℚ
  zspeed : ℚ
  maxHeight : ℚ
  height : ℚ
  width : ℚ
  growing : Bool
  stoppedgrowing : ℚ
deriving DecidableEq, Repr, Inhabited

/-- The `Wave` constructor.  `r1 r2 r3 r4 r5` stand for the five `Math.random()`
draws, in source order (z offset, max x speed, max z speed, max height, width). -/
def mkWave (size r1 r2 r3 r4 r5 : ℚ) : Wave :=
  let maxxSpeed := 9/10 * (r2 * (1/2) + 1/2)
  let maxzSpeed := 9/10 * (r3 * 2 - 1)
  let maxHeight := r4 * 100 + 50
  { size := size
    x := -size
    z := (r1 - 1/2) * size
    maxxSpeed := maxxSpeed
    xspeed := maxxSpeed
    maxzSpeed := maxzSpeed
    zspeed := maxzSpeed
    maxHeight := maxHeight
    height := 1
    width := r5 / maxHeight
    growing := true
    stoppedgrowing := -1 }

/-- `Wave.done()`: `this.x > this.size + 1 || this.height < 0.05`. -/
def waveDone (w : Wave) : Bool :=
  decide (w.x > w.size + 1) || decide (w.height < 1/20)

/-- `Wave.update()`: integrate position, grow height by 0.5 until `maxHeight` is
reached then decay it by factor 0.9999, and recompute both speeds from the
remaining distance to the far edge (using the already-updated position). -/
def waveUpdate (w : Wave) : Wave :=
  let x := w.x + w.xspeed
  let z := w.z + w.zspeed
  let h := if w.growing then w.height + 1/2 else w.height * (9999/10000)
  let g := if w.growing then decide (h < w.maxHeight) else w.growing
  { w with
    x := x
    z := z
    height := h
    growing := g
    xspeed := w.maxxSpeed * (w.size + 2 - x) / w.size
    zspeed := w.maxzSpeed * (w.size + 2 - z) / w.size }

/-- Iterated `Wave.update()` — a wave's trajectory over `n` ticks. -/
def waveIterate : Nat → Wave → Wave
  | 0, w => w
  | n + 1, w => waveIterate n (waveUpdate w)

/-- The attributes named by the round-trip claim: (x, z, height, speed, width). -/
def declaredAttrs (w : Wave) : ℚ × ℚ × ℚ × ℚ × ℚ × ℚ :=
  (w.x, w.z, w.height, w.xspeed, w.zspeed, w.width)

/-- Every field `Wave.update()` can read or that influences later ticks:
the declared attributes plus `growing`, `maxHeight`, the two max speeds and the
domain size (everything except the never-read `stoppedgrowing`). -/
def fullAttrs (w : Wave) : ℚ × ℚ × ℚ × ℚ × ℚ × ℚ × ℚ × ℚ × ℚ × ℚ × Bool :=
  (w.size, w.x, w.z, w.maxxSpeed, w.xspeed, w.maxzSpeed, w.zspeed,
    w.maxHeight, w.height, w.width, w.growing)

/-- The wave-relevant state of `Water` (`Water.js`): the rolling list of active
waves and the domain size (500 in the source). -/
structure Water where
  waves : List Wave
  size : ℚ
deriving Repr

/-- `this.MAXWAVES = 32`. -/
def MAXWAVES : Nat := 32

/-- The spawn guard of `Water.update`:
`Math.random() < 0.075 && waves.length < MAXWAVES &&
 (waves.length == 0 || (waves[waves.length-1].x + size)**2 > 10000)`. -/
def spawnCond (w : Water) (draw : ℚ) : Bool :=
  decide (draw < 3/40) && decide (w.waves.length < MAXWAVES) &&
    (w.waves.isEmpty || decide (((w.waves.getLastD default).x + w.size) ^ 2 > 10000))

/-- `Water.update(time)` restricted to its wave-state effect: possibly push one new
wave, tick every wave, filter out finished waves; returns the new state together
with the list of waves created during this call (`newWaves` in the source).
`draw` is the spawn `Math.random()` draw, `r1 … r5` the constructor draws. -/
def waterUpdate (w : Water) (draw r1 r2 r3 r4 r5 : ℚ) : Water × List Wave :=
  let pushed :=
    if spawnCond w draw then
      let nw := mkWave w.size r1 r2 r3 r4 r5
      (w.waves ++ [nw], [nw])
    else (w.waves, ([] : List Wave))
  let ticked := pushed.1.map waveUpdate
  let kept := ticked.filter (fun v => !(waveDone v))
  ({ w with waves := kept }, pushed.2)

/-- The game-relevant fields attached to a cannon-es building body in `main.js`
(`loader.load` callback plus the fields mutated by `activateBuilding` /
`damageBuilding`).  `appliedImpulses` records every `body.applyImpulse(force,
localPoint)` call, which is the observable effect of the impulse branch here. -/
structure Body where
  id : Nat
  storedMass : ℚ
  maxHealth : ℚ
  health : ℚ
  isActivated : Bool
  isCrushable : Bool
  btype : BodyType
  mass : ℚ
  velocity : Vec3
  position : Vec3
  linearDamping : ℚ
  angularDamping : ℚ
  wireColor : WireColor
  appliedImpulses : List (Vec3 × Vec3)
deriving DecidableEq, Repr

/-- `main.js` mass derivation: `mass = volume * 0.01`;
`body.storedMass = Math.max(5, Math.min(mass, 20000))`. -/
def storedMassOf (volume : ℚ) : ℚ :=
  max 5 (min (volume * (1/100)) 20000)

/-- `main.js` health derivation:
`body.maxHealth = Math.max(200, Math.min(3000, Math.floor(body.storedMass * 10)))`. -/
def maxHealthOf (storedMass : ℚ) : ℚ :=
  max 200 (min 3000 ((⌊storedMass * 10⌋ : ℤ) : ℚ))

/-- A building proxy as built in the `loader.load` traversal of `main.js`:
kinematic, zero engine mass, full health, crushable, not yet activated.
(`linearDamping = 0.01` is the cannon-es default.) -/
def mkBuildingBody (id : Nat) (volume : ℚ) (pos : Vec3) : Body :=
  let sm := storedMassOf volume
  let mh := maxHealthOf sm
  { id := id
    storedMass := sm
    maxHealth := mh
    health := mh
    isActivated := false
    isCrushable := true
    btype := BodyType.KINEMATIC
    mass := 0
    velocity := ⟨0, 0, 0⟩
    position := pos
    linearDamping := 1/100
    angularDamping := 1/100
    wireColor := WireColor.green
    appliedImpulses := [] }

/-- `activateBuilding(body)`: idempotent kinematic→dynamic transition.  `kick` is
the random initial velocity `((r-.5)*3, r*1, (r-.5)*3)` drawn in the source. -/
def activateBuilding (b : Body) (kick : Vec3) : Body :=
  if b.isActivated then b
  else
    { b with
      isActivated := true
      btype := BodyType.DYNAMIC
      mass := b.storedMass
      velocity := kick
      linearDamping := 4/5
      angularDamping := 4/5 }

/-- The wireframe recolor bands of `damageBuilding`: ratio > 0.7 green,
ratio > 0.3 yellow, else red, where ratio = `Math.max(health / maxHealth, 0)`. -/
def wireColorFor (r : ℚ) : WireColor :=
  if r > 7/10 then WireColor.green
  else if r > 3/10 then WireColor.yellow
  else WireColor.red

/-- The clamped impulse of `damageBuilding` as a function of the impact velocity
`v` and the force scale `s` (`s = forceMagnitude / Math.sqrt(storedMass)` with
`forceMagnitude = impactVelocity.length() * 2`, hence always nonnegative):
`(Math.min(v.x*s, 10), Math.min(Math.abs(v.y)*s*0.3, 0.01), Math.min(v.z*s, 10))`. -/
def impulseForce (v : Vec3) (s : ℚ) : Vec3 :=
  ⟨min (v.x * s) 10, min (|v.y| * s * (3/10)) (1/100), min (v.z * s) 10⟩

/-- `damageBuilding(body, damage, impactPoint, impactVelocity)` from `main.js`.
`impact` is `some (impactPoint, impactVelocity)` when both are supplied, `s` the
force scale (see `impulseForce`), `kick` the activation velocity draw, and
`queue` the `buildingsToRemove` array.  Note the order of effects in the source:
health is decremented and the wireframe recolored first; if health ≤ 0 the body
is only pushed onto the removal queue and the function returns (no activation,
no impulse); otherwise it is activated and, when impact data exists, receives
one clamped impulse at the contact offset. -/
def damageBuilding (b : Body) (damage : ℚ) (impact : Option (Vec3 × Vec3))
    (s : ℚ) (kick : Vec3) (queue : List Nat) : Body × List Nat :=
  let b1 := { b with health := b.health - damage }
  let b2 := { b1 with wireColor := wireColorFor (max (b1.health / b1.maxHealth) 0) }
  if b2.health ≤ 0 then (b2, queue ++ [b2.id])
  else
    let b3 := activateBuilding b2 kick
    match impact with
    | none => (b3, queue)
    | some (pt, v) =>
        let force := impulseForce v s
        let localPoint : Vec3 :=
          ⟨pt.x - b3.position.x, pt.y - b3.position.y, pt.z - b3.position.z⟩
        ({ b3 with appliedImpulses := b3.appliedImpulses ++ [(force, localPoint)] }, queue)

/-- The bookkeeping state mutated by the removal sweep: the World's body list and
the `buildings` array (as body ids) plus the `buildingsToRemove` queue. -/
structure SimState where
  worldBodies : List Nat
  buildings : List Nat
  buildingsToRemove : List Nat
deriving DecidableEq, Repr

/-- One `buildingsToRemove.pop()` iteration body, applied to the queue already
reversed into pop order: `world.removeBody(body)` is a no-op when the body is
absent (cannon-es checks `indexOf`), and the `buildings.splice` is guarded by
`indexOf > -1`; both are `List.erase`. -/
def sweepAux : List Nat → List Nat → List Nat → List Nat × List Nat
  | [], world, bldgs => (world, bldgs)
  | b :: rest, world, bldgs => sweepAux rest (world.erase b) (bldgs.erase b)

/-- `processBuildingRemoval()`: pop the queue until empty, removing each popped
body from the World and from the `buildings` list. -/
def processBuildingRemoval (st : SimState) : SimState :=
  let wb := sweepAux st.buildingsToRemove.reverse st.worldBodies st.buildings
  { worldBodies := wb.1, buildings := wb.2, buildingsToRemove := [] }

/-- The per-wave-ball guard state of `makeBall` in `main.js`: `lastTouched[index]`
(initialized to `NaN`, which compares unequal to every body, hence `none`), plus
the record of damage amounts this ball has applied via `damageBuilding`. -/
structure WaveBallGuard where
  lastTouched : Option Nat
  damagesApplied : List ℚ
deriving DecidableEq, Repr

/-- The `collide` handler of a wave-ball (`makeBall`): if the hit body differs
from `lastTouched[index]`, store it, and if it is crushable apply the constant
damage 10 through `damageBuilding` (the source also decays `wave.multiplier` and
zeroes the sphere radius, neither of which feeds back into this handler). -/
def waveBallCollide (g : WaveBallGuard) (hit : Body) (pos vel : Vec3)
    (s : ℚ) (kick : Vec3) (queue : List Nat) : WaveBallGuard × Body × List Nat :=
  if g.lastTouched ≠ some hit.id then
    let g1 : WaveBallGuard := { g with lastTouched := some hit.id }
    if hit.isCrushable then
      let r := damageBuilding hit 10 (some (pos, vel)) s kick queue
      ({ g1 with damagesApplied := g1.damagesApplied ++ [10] }, r.1, r.2)
    else (g1, hit, queue)
  else (g, hit, queue)

/-- `n` consecutive physics sub-steps of continuous overlap between one wave-ball
and one building: the collide handler fires once per sub-step with the current
building state. -/
def contactEpisode : Nat → WaveBallGuard → Body → Vec3 → Vec3 → ℚ → Vec3 →
    List Nat → WaveBallGuard × Body × List Nat
  | 0, g, b, _, _, _, _, queue => (g, b, queue)
  | n + 1, g, b, pos, vel, s, kick, queue =>
      let r := waveBallCollide g b pos vel s kick queue
      contactEpisode n r.1 r.2.1 pos vel s kick r.2.2

/-- `MAX_OBJECTS = 200` in `main.js`. -/
def MAX_OBJECTS : Nat := 200

/-- The frame-end cap sweep of `animate()`:
`while (objects.length > MAX_OBJECTS) objects.shift()` — drop the oldest
projectile (list head; `objects.push` appends) while over the cap. -/
def capSweep : List Nat → List Nat
  | [] => []
  | x :: xs => if xs.length + 1 > MAX_OBJECTS then capSweep xs else x :: xs

/-! ### Concrete sample objects used by scenarios, witnesses and counterexamples -/

/-- A building whose world bounding box has volume 10000, so `storedMass = 100`
and `maxHealth = 1000` — the first scenario building of the spec. -/
def b100 : Body := mkBuildingBody 1 10000 ⟨0, 0, 0⟩

/-- A building of volume 500000, so `storedMass = 5000` and `maxHealth` clamps
to 3000 — the second scenario building of the spec. -/
def b5000 : Body := mkBuildingBody 2 500000 ⟨0, 0, 0⟩

/-- First 1200-damage hit on `b5000`. -/
def c8hit1 : Body × List Nat := damageBuilding b5000 1200 none 0 ⟨0, 0, 0⟩ []

/-- Second 1200-damage hit on `b5000`. -/
def c8hit2 : Body × List Nat := damageBuilding c8hit1.1 1200 none 0 ⟨0, 0, 0⟩ c8hit1.2

/-- Third 1200-damage hit on `b5000`. -/
def c8hit3 : Body × List Nat := damageBuilding c8hit2.1 1200 none 0 ⟨0, 0, 0⟩ c8hit2.2

/-- `b100` after an overkill hit of 1200: stored health is −200. -/
def deadB : Body := (damageBuilding b100 1200 none 0 ⟨0, 0, 0⟩ []).1

/-- A growing wave at height 50 (below its max height 100). -/
def cexWaveA : Wave :=
  ⟨500, 0, 0, 1/2, 1/2, 0, 0, 100, 50, 1/100, true, -1⟩

/-- The same declared attributes as `cexWaveA`, but already decaying. -/
def cexWaveB : Wave :=
  ⟨500, 0, 0, 1/2, 1/2, 0, 0, 100, 50, 1/100, false, -1⟩

/-- Identical to `cexWaveA` except in the never-read `stoppedgrowing` field. -/
def cexWaveC : Wave :=
  ⟨500, 0, 0, 1/2, 1/2, 0, 0, 100, 50, 1/100, true, -2⟩

/-! ### Helper lemmas -/

lemma activateBuilding_health (b : Body) (k : Vec3) :
    (activateBuilding b k).health = b.health := by
  unfold activateBuilding; split <;> rfl

lemma activateBuilding_id (b : Body) (k : Vec3) :
    (activateBuilding b k).id = b.id := by
  unfold activateBuilding; split <;> rfl

lemma activateBuilding_maxHealth (b : Body) (k : Vec3) :
    (activateBuilding b k).maxHealth = b.maxHealth := by
  unfold activateBuilding; split <;> rfl

lemma activateBuilding_position (b : Body) (k : Vec3) :
    (activateBuilding b k).position = b.position := by
  unfold activateBuilding; split <;> rfl

lemma activateBuilding_appliedImpulses (b : Body) (k : Vec3) :
    (activateBuilding b k).appliedImpulses = b.appliedImpulses := by
  unfold activateBuilding; split <;> rfl

lemma activateBuilding_isCrushable (b : Body) (k : Vec3) :
    (activateBuilding b k).isCrushable = b.isCrushable := by
  unfold activateBuilding; split <;> rfl

lemma damageBuilding_health (b : Body) (d : ℚ) (i : Option (Vec3 × Vec3)) (s : ℚ)
    (k : Vec3) (q : List Nat) :
    (damageBuilding b d i s k q).1.health = b.health - d := by
  rcases i with _ | ⟨pt, v⟩ <;> simp only [damageBuilding] <;> split <;>
    simp [activateBuilding_health]

lemma damageBuilding_id (b : Body) (d : ℚ) (i : Option (Vec3 × Vec3)) (s : ℚ)
    (k : Vec3) (q : List Nat) :
    (damageBuilding b d i s k q).1.id = b.id := by
  rcases i with _ | ⟨pt, v⟩ <;> simp only [damageBuilding] <;> split <;>
    simp [activateBuilding_id]

lemma damageBuilding_maxHealth (b : Body) (d : ℚ) (i : Option (Vec3 × Vec3)) (s : ℚ)
    (k : Vec3) (q : List Nat) :
    (damageBuilding b d i s k q).1.maxHealth = b.maxHealth := by
  rcases i with _ | ⟨pt, v⟩ <;> simp only [damageBuilding] <;> split <;>
    simp [activateBuilding_maxHealth]

lemma damageBuilding_kill (b : Body) (d : ℚ) (i : Option (Vec3 × Vec3)) (s : ℚ)
    (k : Vec3) (q : List Nat) (h : b.health - d ≤ 0) :
    damageBuilding b d i s k q =
      ({ b with health := b.health - d,
                wireColor := wireColorFor (max ((b.health - d) / b.maxHealth) 0) },
        q ++ [b.id]) := by
  rcases i with _ | ⟨pt, v⟩ <;> simp only [damageBuilding] <;> rw [if_pos h]

lemma damageBuilding_survive (b : Body) (d : ℚ) (pt v : Vec3) (s : ℚ)
    (k : Vec3) (q : List Nat) (h : ¬ b.health - d ≤ 0) :
    damageBuilding b d (some (pt, v)) s k q =
      (let b3 := activateBuilding
        { b with health := b.health - d,
                 wireColor := wireColorFor (max ((b.health - d) / b.maxHealth) 0) } k
       { b3 with appliedImpulses := b3.appliedImpulses ++
          [(impulseForce v s,
            ⟨pt.x - b3.position.x, pt.y - b3.position.y, pt.z - b3.position.z⟩)] },
        q) := by
  simp only [damageBuilding]
  rw [if_neg h]

lemma activateBuilding_isActivated (b : Body) (k : Vec3) :
    (activateBuilding b k).isActivated = true := by
  unfold activateBuilding
  split
  · assumption
  · rfl

lemma damageBuilding_survive_isActivated (b : Body) (d : ℚ) (i : Option (Vec3 × Vec3))
    (s : ℚ) (k : Vec3) (q : List Nat) (h : ¬ b.health - d ≤ 0) :
    (damageBuilding b d i s k q).1.isActivated = true := by
  rcases i with _ | ⟨pt, v⟩ <;> simp only [damageBuilding] <;> rw [if_neg h] <;>
    simp [activateBuilding_isActivated]

lemma damageBuilding_survive_queue (b : Body) (d : ℚ) (i : Option (Vec3 × Vec3))
    (s : ℚ) (k : Vec3) (q : List Nat) (h : ¬ b.health - d ≤ 0) :
    (damageBuilding b d i s k q).2 = q := by
  rcases i with _ | ⟨pt, v⟩ <;> simp only [damageBuilding] <;> rw [if_neg h]

lemma sweepAux_fst_not_mem (a : Nat) :
    ∀ (q world bldgs : List Nat), a ∉ world → a ∉ (sweepAux q world bldgs).1
  | [], _, _, h => h
  | c :: rest, world, bldgs, h =>
    sweepAux_fst_not_mem a rest (world.erase c) (bldgs.erase c)
      (fun hc => h (List.mem_of_mem_erase hc))

lemma sweepAux_snd_not_mem (a : Nat) :
    ∀ (q world bldgs : List Nat), a ∉ bldgs → a ∉ (sweepAux q world bldgs).2
  | [], _, _, h => h
  | c :: rest, world, bldgs, h =>
    sweepAux_snd_not_mem a rest (world.erase c) (bldgs.erase c)
      (fun hc => h (List.mem_of_mem_erase hc))

lemma sweepAux_fst_removes (a : Nat) :
    ∀ (q world bldgs : List Nat), a ∈ q → world.count a ≤ 1 →
      a ∉ (sweepAux q world bldgs).1 := by
  intro q
  induction q with
  | nil => intro _ _ h; exact absurd h (List.not_mem_nil a)
  | cons c rest ih =>
      intro world bldgs hq hcount
      by_cases hac : a = c
      · subst hac
        have : (world.erase a).count a = 0 := by
          rw [List.count_erase_self]; omega
        exact sweepAux_fst_not_mem a rest _ _
          (by rw [← List.count_pos_iff]; omega)
      · have hmem : a ∈ rest := by
          rcases List.mem_cons.mp hq with h | h
          · exact absurd h hac
          · exact h
        have : (world.erase c).count a ≤ 1 := by
          rw [List.count_erase_of_ne hac]; exact hcount
        exact ih (world.erase c) (bldgs.erase c) hmem this

lemma sweepAux_snd_removes (a : Nat) :
    ∀ (q world bldgs : List Nat), a ∈ q → bldgs.count a ≤ 1 →
      a ∉ (sweepAux q world bldgs).2 := by
  intro q
  induction q with
  | nil => intro _ _ h; exact absurd h (List.not_mem_nil a)
  | cons c rest ih =>
      intro world bldgs hq hcount
      by_cases hac : a = c
      · subst hac
        have : (bldgs.erase a).count a = 0 := by
          rw [List.count_erase_self]; omega
        exact sweepAux_snd_not_mem a rest _ _
          (by rw [← List.count_pos_iff]; omega)
      · have hmem : a ∈ rest := by
          rcases List.mem_cons.mp hq with h | h
          · exact absurd h hac
          · exact h
        have : (bldgs.erase c).count a ≤ 1 := by
          rw [List.count_erase_of_ne hac]; exact hcount
        exact ih (world.erase c) (bldgs.erase c) hmem this

/-- After the frame-end sweep a queued body is gone from the World (assuming the
World's list holds each body at most once, as `world.addBody` is called exactly
once per building). -/
lemma processBuildingRemoval_world (st : SimState) (a : Nat)
    (hq : a ∈ st.buildingsToRemove) (hcount : st.worldBodies.count a ≤ 1) :
    a ∉ (processBuildingRemoval st).worldBodies :=
  sweepAux_fst_removes a _ _ _ (List.mem_reverse.mpr hq) hcount

/-- After the frame-end sweep a queued body is gone from the `buildings` list. -/
lemma processBuildingRemoval_buildings (st : SimState) (a : Nat)
    (hq : a ∈ st.buildingsToRemove) (hcount : st.buildings.count a ≤ 1) :
    a ∉ (processBuildingRemoval st).buildings :=
  sweepAux_snd_removes a _ _ _ (List.mem_reverse.mpr hq) hcount

lemma processBuildingRemoval_queue (st : SimState) :
    (processBuildingRemoval st).buildingsToRemove = [] := rfl

/-- Once the guard stores the building's id, further contacts of the episode are
no-ops. -/
lemma contactEpisode_guarded (b : Body) (pos vel : Vec3) (s : ℚ) (k : Vec3) :
    ∀ (n : Nat) (g : WaveBallGuard) (q : List Nat), g.lastTouched = some b.id →
      contactEpisode n g b pos vel s k q = (g, b, q) := by
  intro n
  induction n with
  | zero => intro g q _; rfl
  | succ m ih =>
      intro g q hg
      have hstep : waveBallCollide g b pos vel s k q = (g, b, q) := by
        unfold waveBallCollide
        rw [if_neg (by simp [hg])]
      show contactEpisode m (waveBallCollide g b pos vel s k q).1
          (waveBallCollide g b pos vel s k q).2.1 pos vel s k
          (waveBallCollide g b pos vel s k q).2.2 = (g, b, q)
      rw [hstep]
      exact ih g q hg

/-- `capSweep` is "drop the oldest until at the cap". -/
lemma capSweep_eq_drop : ∀ l : List Nat, capSweep l = l.drop (l.length - MAX_OBJECTS)
  | [] => rfl
  | x :: xs => by
      unfold capSweep
      by_cases h : xs.length + 1 > MAX_OBJECTS
      · rw [if_pos h, capSweep_eq_drop xs]
        have : (x :: xs).length - MAX_OBJECTS = (xs.length - MAX_OBJECTS) + 1 := by
          simp only [List.length_cons]; omega
        rw [this, List.drop_succ_cons]
      · rw [if_neg h]
        have : (x :: xs).length - MAX_OBJECTS = 0 := by
          simp only [List.length_cons]; omega
        rw [this, List.drop_zero]

lemma capSweep_length (l : List Nat) :
    (capSweep l).length = min l.length MAX_OBJECTS := by
  rw [capSweep_eq_drop, List.length_drop]
  omega

/-! ### Claim theorems -/

/-- C1 (amended).  The upper half of the claimed invariant holds: a freshly
initialized building has `health = maxHealth ≥ 0`, a damage application with a
nonnegative amount never increases `health` and never changes `maxHealth`, and
activation never changes `health`.  The lower bound of the claim is false: the
code never clamps `health` at 0 (see the counterexample), it only enqueues the
building for removal once `health ≤ 0`. -/
theorem damageBuilding_health_bounds (idb : Nat) (vol : ℚ) (p : Vec3) (b : Body)
    (d : ℚ) (i : Option (Vec3 × Vec3)) (s : ℚ) (k : Vec3) (q : List Nat)
    (hd : 0 ≤ d) :
    (mkBuildingBody idb vol p).health = (mkBuildingBody idb vol p).maxHealth ∧
    0 ≤ (mkBuildingBody idb vol p).health ∧
    (damageBuilding b d i s k q).1.health ≤ b.health ∧
    (damageBuilding b d i s k q).1.maxHealth = b.maxHealth ∧
    (activateBuilding b k).health = b.health := by
  refine ⟨rfl, ?_, ?_, damageBuilding_maxHealth b d i s k q,
    activateBuilding_health b k⟩
  · show (0 : ℚ) ≤ maxHealthOf (storedMassOf vol)
    unfold maxHealthOf
    exact le_trans (by norm_num) (le_max_left _ _)
  · rw [damageBuilding_health]
    linarith

/-- Witness for C1's amended theorem at a concrete input. -/
theorem damageBuilding_health_bounds_witness :
    (mkBuildingBody 1 10000 ⟨0, 0, 0⟩).health = (mkBuildingBody 1 10000 ⟨0, 0, 0⟩).maxHealth ∧
    0 ≤ (mkBuildingBody 1 10000 ⟨0, 0, 0⟩).health ∧
    (damageBuilding b100 5 none 0 ⟨0, 0, 0⟩ []).1.health ≤ b100.health ∧
    (damageBuilding b100 5 none 0 ⟨0, 0, 0⟩ []).1.maxHealth = b100.maxHealth ∧
    (activateBuilding b100 ⟨0, 0, 0⟩).health = b100.health :=
  damageBuilding_health_bounds 1 10000 ⟨0, 0, 0⟩ b100 5 none 0 ⟨0, 0, 0⟩ []
    (by norm_num)

/-- C1 counterexample: on a building with `maxHealth = 1000` a single hit of
1200 leaves a stored health of −200, so `damageBuilding` does leave the stored
health below 0, refuting `health ∈ [0, maxHealth]` as stated. -/
theorem damageBuilding_health_neg_cex :
    (damageBuilding b100 1200 none 0 ⟨0, 0, 0⟩ []).1.health = -200 ∧
    ¬ 0 ≤ (damageBuilding b100 1200 none 0 ⟨0, 0, 0⟩ []).1.health := by
  have h : (damageBuilding b100 1200 none 0 ⟨0, 0, 0⟩ []).1.health = -200 := by
    norm_num [damageBuilding_health, b100, mkBuildingBody, storedMassOf, maxHealthOf]
  exact ⟨h, by rw [h]; norm_num⟩

/-- C2 (confirmed).  A damage application that brings health to ≤ 0 only pushes
the body onto the removal queue and returns: the activation flag, body type,
velocity and impulse record are untouched (a Static building goes straight to
Destroyed with no velocity kick and no impulse).  The queue is consumed by
`processBuildingRemoval`, which in `animate()` runs only after `world.step` has
fired all contact callbacks of the frame; after that sweep the body is in
neither the World's body list nor the `buildings` bookkeeping list (each of
which holds a body at most once). -/
theorem damageBuilding_kill_deferred_removal (b : Body) (d : ℚ)
    (i : Option (Vec3 × Vec3)) (s : ℚ) (k : Vec3) (q world bldgs : List Nat)
    (hkill : b.health - d ≤ 0) (hw : world.count b.id ≤ 1)
    (hb : bldgs.count b.id ≤ 1) :
    (damageBuilding b d i s k q).2 = q ++ [b.id] ∧
    (damageBuilding b d i s k q).1.isActivated = b.isActivated ∧
    (damageBuilding b d i s k q).1.btype = b.btype ∧
    (damageBuilding b d i s k q).1.velocity = b.velocity ∧
    (damageBuilding b d i s k q).1.appliedImpulses = b.appliedImpulses ∧
    b.id ∉ (processBuildingRemoval
      ⟨world, bldgs, (damageBuilding b d i s k q).2⟩).worldBodies ∧
    b.id ∉ (processBuildingRemoval
      ⟨world, bldgs, (damageBuilding b d i s k q).2⟩).buildings ∧
    (processBuildingRemoval
      ⟨world, bldgs, (damageBuilding b d i s k q).2⟩).buildingsToRemove = [] := by
  rw [damageBuilding_kill b d i s k q hkill]
  have hq : b.id ∈ q ++ [b.id] := List.mem_append_right _ (List.mem_singleton.mpr rfl)
  exact ⟨rfl, rfl, rfl, rfl, rfl,
    processBuildingRemoval_world ⟨world, bldgs, q ++ [b.id]⟩ b.id hq hw,
    processBuildingRemoval_buildings ⟨world, bldgs, q ++ [b.id]⟩ b.id hq hb,
    rfl⟩

/-- Witness for C2 at a concrete input: `b100` (health 1000) hit for 1200, with
the body present once in the World list and once in `buildings`. -/
theorem damageBuilding_kill_deferred_removal_witness :
    (damageBuilding b100 1200 none 0 ⟨0, 0, 0⟩ []).2 = [] ++ [b100.id] ∧
    (damageBuilding b100 1200 none 0 ⟨0, 0, 0⟩ []).1.isActivated = b100.isActivated ∧
    (damageBuilding b100 1200 none 0 ⟨0, 0, 0⟩ []).1.btype = b100.btype ∧
    (damageBuilding b100 1200 none 0 ⟨0, 0, 0⟩ []).1.velocity = b100.velocity ∧
    (damageBuilding b100 1200 none 0 ⟨0, 0, 0⟩ []).1.appliedImpulses = b100.appliedImpulses ∧
    b100.id ∉ (processBuildingRemoval
      ⟨[1], [1], (damageBuilding b100 1200 none 0 ⟨0, 0, 0⟩ []).2⟩).worldBodies ∧
    b100.id ∉ (processBuildingRemoval
      ⟨[1], [1], (damageBuilding b100 1200 none 0 ⟨0, 0, 0⟩ []).2⟩).buildings ∧
    (processBuildingRemoval
      ⟨[1], [1], (damageBuilding b100 1200 none 0 ⟨0, 0, 0⟩ []).2⟩).buildingsToRemove = [] :=
  damageBuilding_kill_deferred_removal b100 1200 none 0 ⟨0, 0, 0⟩ [] [1] [1]
    (by norm_num [b100, mkBuildingBody, storedMassOf, maxHealthOf])
    (by norm_num [b100, mkBuildingBody]) (by norm_num [b100, mkBuildingBody])

/-- C3 (confirmed).  During a contact episode of `n ≥ 3` consecutive sub-steps of
continuous overlap between one wave-ball and one crushable building, the
last-touched guard lets exactly one damage application through, of the constant
amount 10: the guard is set on the first contact and every later contact of the
episode is a no-op, so the building's health drops by exactly 10. -/
theorem waveBall_single_damage_per_episode (n : Nat) (g : WaveBallGuard) (b : Body)
    (pos vel : Vec3) (s : ℚ) (k : Vec3) (q : List Nat) (hn : 3 ≤ n)
    (hg : g.lastTouched ≠ some b.id) (hc : b.isCrushable = true) :
    (contactEpisode n g b pos vel s k q).1.damagesApplied = g.damagesApplied ++ [10] ∧
    (contactEpisode n g b pos vel s k q).2.1.health = b.health - 10 := by
  obtain ⟨m, rfl⟩ : ∃ m, n = m + 1 := ⟨n - 1, by omega⟩
  have hstep : waveBallCollide g b pos vel s k q =
      ({ g with lastTouched := some b.id,
                damagesApplied := g.damagesApplied ++ [10] },
        (damageBuilding b 10 (some (pos, vel)) s k q).1,
        (damageBuilding b 10 (some (pos, vel)) s k q).2) := by
    unfold waveBallCollide
    rw [if_pos hg, if_pos hc]
  have hrest : contactEpisode (m + 1) g b pos vel s k q =
      ({ g with lastTouched := some b.id,
                damagesApplied := g.damagesApplied ++ [10] },
        (damageBuilding b 10 (some (pos, vel)) s k q).1,
        (damageBuilding b 10 (some (pos, vel)) s k q).2) := by
    show contactEpisode m (waveBallCollide g b pos vel s k q).1
        (waveBallCollide g b pos vel s k q).2.1 pos vel s k
        (waveBallCollide g b pos vel s k q).2.2 = _
    rw [hstep]
    exact contactEpisode_guarded _ pos vel s k m _ _
      (by simp [damageBuilding_id])
  rw [hrest]
  exact ⟨rfl, damageBuilding_health b 10 _ s k q⟩

/-- Witness for C3: three sub-steps of continuous contact between a fresh
wave-ball guard and `b100` yield a single recorded damage of 10 and a single
health decrement 1000 → 990. -/
theorem waveBall_single_damage_per_episode_witness :
    (contactEpisode 3 ⟨none, []⟩ b100 ⟨0, 0, 0⟩ ⟨0, 0, 0⟩ 0 ⟨0, 0, 0⟩ []).1.damagesApplied
        = [] ++ [10] ∧
    (contactEpisode 3 ⟨none, []⟩ b100 ⟨0, 0, 0⟩ ⟨0, 0, 0⟩ 0 ⟨0, 0, 0⟩ []).2.1.health
        = b100.health - 10 :=
  waveBall_single_damage_per_episode 3 ⟨none, []⟩ b100 ⟨0, 0, 0⟩ ⟨0, 0, 0⟩ 0 ⟨0, 0, 0⟩ []
    (by norm_num) (by simp) rfl

/-- C4 (confirmed).  One call of `Water.update` emits `newWaves` of length 1 when
the spawn guard passes (probability-0.075 draw, fewer than 32 active waves, and
either no waves or squared distance `(lastWave.x + size)^2 > 10000`) and length 0
otherwise — hence at most one new wave per call — and starting from at most 32
active waves it leaves at most 32 active waves. -/
theorem waterUpdate_spawn_bound (w : Water) (draw r1 r2 r3 r4 r5 : ℚ)
    (hlen : w.waves.length ≤ MAXWAVES) :
    (waterUpdate w draw r1 r2 r3 r4 r5).2.length = (if spawnCond w draw then 1 else 0) ∧
    (waterUpdate w draw r1 r2 r3 r4 r5).2.length ≤ 1 ∧
    (waterUpdate w draw r1 r2 r3 r4 r5).1.waves.length ≤ MAXWAVES := by
  by_cases hsp : spawnCond w draw
  · have hlt : w.waves.length < MAXWAVES := by
      have := hsp
      unfold spawnCond at this
      simp only [Bool.and_eq_true, decide_eq_true_eq] at this
      exact this.1.2
    constructor
    · simp [waterUpdate, hsp]
    constructor
    · simp [waterUpdate, hsp]
    · have : (waterUpdate w draw r1 r2 r3 r4 r5).1.waves.length ≤
          w.waves.length + 1 := by
        simp only [waterUpdate, if_pos hsp]
        exact le_trans (List.length_filter_le _ _) (by simp)
      omega
  · constructor
    · simp [waterUpdate, hsp]
    constructor
    · simp [waterUpdate, hsp]
    · have : (waterUpdate w draw r1 r2 r3 r4 r5).1.waves.length ≤
          w.waves.length := by
        simp only [waterUpdate, if_neg hsp]
        exact le_trans (List.length_filter_le _ _) (by simp)
      omega

/-- Witness for C4 at a concrete input: an empty wave list and a passing draw. -/
theorem waterUpdate_spawn_bound_witness :
    (waterUpdate ⟨[], 500⟩ 0 0 0 0 0 0).2.length
        = (if spawnCond ⟨[], 500⟩ 0 then 1 else 0) ∧
    (waterUpdate ⟨[], 500⟩ 0 0 0 0 0 0).2.length ≤ 1 ∧
    (waterUpdate ⟨[], 500⟩ 0 0 0 0 0 0).1.waves.length ≤ MAXWAVES :=
  waterUpdate_spawn_bound ⟨[], 500⟩ 0 0 0 0 0 0 (by norm_num)

set_option maxRecDepth 10000 in
/-- C5 (confirmed).  The frame-end cap sweep of `animate()` drops the oldest
projectiles (FIFO, from the front of `objects`) until at most `MAX_OBJECTS = 200`
remain: after the sweep the count is `min (previous count) 200`, the survivors
are exactly the newest 200, and launching 250 projectiles (ids 0…249 in launch
order) leaves exactly the 200 newest, ids 50…249 — the 50 oldest are evicted. -/
theorem capSweep_fifo_bound :
    (∀ l : List Nat, (capSweep l).length = min l.length MAX_OBJECTS) ∧
    (∀ l : List Nat, (capSweep l).length ≤ MAX_OBJECTS) ∧
    (∀ l : List Nat, capSweep l = l.drop (l.length - MAX_OBJECTS)) ∧
    capSweep (List.range 250) = List.range' 50 200 ∧
    (capSweep (List.range 250)).length = 200 := by
  refine ⟨capSweep_length, ?_, capSweep_eq_drop, ?_, ?_⟩
  · intro l
    rw [capSweep_length]
    omega
  · decide
  · rw [capSweep_length]
    simp [MAX_OBJECTS]

/-- C6 (amended).  The wave round-trip claim as stated is false (see the
counterexample): (x, z, height, speed, width) do not determine the trajectory.
Amended: the evolution is determined by the declared attributes *plus* the
internal `growing` flag, `maxHeight`, the two max-speed parameters and the
domain `size` — i.e. by every stored field except the never-read
`stoppedgrowing`; restoring all of those reproduces the trajectory exactly. -/
theorem waveUpdate_full_state_determinism (w₁ w₂ : Wave)
    (h : fullAttrs w₁ = fullAttrs w₂) :
    ∀ n : Nat, fullAttrs (waveIterate n w₁) = fullAttrs (waveIterate n w₂) := by
  have step : ∀ v₁ v₂ : Wave, fullAttrs v₁ = fullAttrs v₂ →
      fullAttrs (waveUpdate v₁) = fullAttrs (waveUpdate v₂) := by
    intro v₁ v₂ hv
    cases v₁
    cases v₂
    simp only [fullAttrs, Prod.mk.injEq] at hv
    obtain ⟨h1, h2, h3, h4, h5, h6, h7, h8, h9, h10, h11⟩ := hv
    subst h1; subst h2; subst h3; subst h4; subst h5; subst h6
    subst h7; subst h8; subst h9; subst h10; subst h11
    rfl
  intro n
  induction n generalizing w₁ w₂ with
  | zero => exact h
  | succ m ih => exact ih (waveUpdate w₁) (waveUpdate w₂) (step w₁ w₂ h)

/-- Witness for C6's amended theorem: two waves differing only in
`stoppedgrowing` follow the same trajectory (shown here after 5 ticks). -/
theorem waveUpdate_full_state_determinism_witness :
    fullAttrs (waveIterate 5 cexWaveA) = fullAttrs (waveIterate 5 cexWaveC) :=
  waveUpdate_full_state_determinism cexWaveA cexWaveC rfl 5

/-- C6 counterexample: `cexWaveA` and `cexWaveB` agree on all declared attributes
(x, z, height, xspeed, zspeed, width) yet their next heights differ (50.5 when
still growing vs 49.995 when decaying), so the hidden `growing` flag is state
outside the declared attributes that changes the subsequent trajectory. -/
theorem waveUpdate_hidden_state_cex :
    declaredAttrs cexWaveA = declaredAttrs cexWaveB ∧
    (waveUpdate cexWaveA).height = 101/2 ∧
    (waveUpdate cexWaveB).height = 9999/200 ∧
    (waveUpdate cexWaveA).height ≠ (waveUpdate cexWaveB).height := by
  refine ⟨rfl, ?_, ?_, ?_⟩ <;> norm_num [waveUpdate, cexWaveA, cexWaveB]

/-- C7 (amended).  The impulse components are clamped *from above only*:
`x ≤ 10`, `z ≤ 10` and `y ∈ [0, 0.01]` (nonnegative force scale `s`; the `y`
component is two-sided because of the `Math.abs`).  The stated two-sided
magnitude bound on x and z is false — `Math.min(v * s, 10)` has no lower clamp,
so a negative velocity component produces an impulse component of unbounded
magnitude (see the counterexample).  When the building survives the hit,
`damageBuilding` records exactly this `impulseForce v s` applied at the contact
point offset from the body center. -/
theorem impulseForce_clamp_bounds (b : Body) (d : ℚ) (pt v : Vec3) (s : ℚ)
    (k : Vec3) (q : List Nat) (hs : 0 ≤ s) (hsurv : ¬ b.health - d ≤ 0) :
    (impulseForce v s).x ≤ 10 ∧
    0 ≤ (impulseForce v s).y ∧
    (impulseForce v s).y ≤ 1/100 ∧
    (impulseForce v s).z ≤ 10 ∧
    (damageBuilding b d (some (pt, v)) s k q).1.appliedImpulses =
      b.appliedImpulses ++
        [(impulseForce v s,
          ⟨pt.x - b.position.x, pt.y - b.position.y, pt.z - b.position.z⟩)] := by
  refine ⟨min_le_right _ _, ?_, min_le_right _ _, min_le_right _ _, ?_⟩
  · exact le_min (by positivity) (by norm_num)
  · rw [damageBuilding_survive b d pt v s k q hsurv]
    simp [activateBuilding_appliedImpulses, activateBuilding_position]

/-- Witness for C7's amended theorem at a concrete surviving hit. -/
theorem impulseForce_clamp_bounds_witness :
    (impulseForce ⟨1, 1, 1⟩ 1).x ≤ 10 ∧
    0 ≤ (impulseForce ⟨1, 1, 1⟩ 1).y ∧
    (impulseForce ⟨1, 1, 1⟩ 1).y ≤ 1/100 ∧
    (impulseForce ⟨1, 1, 1⟩ 1).z ≤ 10 ∧
    (damageBuilding b100 10 (some (⟨0, 0, 0⟩, ⟨1, 1, 1⟩)) 1 ⟨0, 0, 0⟩ []).1.appliedImpulses =
      b100.appliedImpulses ++
        [(impulseForce ⟨1, 1, 1⟩ 1,
          ⟨(0:ℚ) - b100.position.x, (0:ℚ) - b100.position.y, (0:ℚ) - b100.position.z⟩)] :=
  impulseForce_clamp_bounds b100 10 ⟨0, 0, 0⟩ ⟨1, 1, 1⟩ 1 ⟨0, 0, 0⟩ []
    (by norm_num)
    (by norm_num [b100, mkBuildingBody, storedMassOf, maxHealthOf])

/-- C7 counterexample.  For impact velocity (−100, 0, 0) on `b100`
(`storedMass = 100`), the source computes the force scale exactly:
`forceScale = |v| * 2 / sqrt(100) = 200 / 10 = 20`.  The recorded x impulse
component is `min(−100·20, 10) = −2000`, of magnitude 2000 ≫ 10: the claimed
bound "|x component| ≤ 10" is false. -/
theorem impulseForce_unbounded_neg_cex :
    impulseForce ⟨-100, 0, 0⟩ 20 = ⟨-2000, 0, 0⟩ ∧
    ¬ |(impulseForce ⟨-100, 0, 0⟩ 20).x| ≤ 10 ∧
    ((damageBuilding b100 10 (some (⟨0, 0, 0⟩, ⟨-100, 0, 0⟩)) 20 ⟨0, 0, 0⟩
        []).1.appliedImpulses).map Prod.fst = [⟨-2000, 0, 0⟩] := by
  have hf : impulseForce ⟨-100, 0, 0⟩ 20 = ⟨-2000, 0, 0⟩ := by
    norm_num [impulseForce]
  refine ⟨hf, ?_, ?_⟩
  · rw [hf]
    norm_num
  · rw [damageBuilding_survive b100 10 ⟨0, 0, 0⟩ ⟨-100, 0, 0⟩ 20 ⟨0, 0, 0⟩ []
      (by norm_num [b100, mkBuildingBody, storedMassOf, maxHealthOf])]
    simp [activateBuilding_appliedImpulses, b100, mkBuildingBody, hf]

/-- C8 (confirmed).  `storedMass` is the bounding-box volume times 0.01 clamped
to [5, 20000] and `maxHealth` is `floor(storedMass·10)` clamped to [200, 3000],
with `health` initialized to `maxHealth`.  Volume 10000 gives `storedMass = 100`
and `maxHealth = 1000`, and one 1200-damage hit leaves health −200 ≤ 0, the body
still kinematic and non-activated (Static → Destroyed directly) and enqueued for
removal.  Volume 500000 gives `storedMass = 5000`, `maxHealth` clamped to 3000,
and three sequential 1200-damage hits run health 3000 → 1800 → 600 → −600, the
first two activating the building and only the third enqueueing it. -/
theorem building_mass_health_scenarios :
    (∀ v : ℚ, storedMassOf v = max 5 (min (v * (1/100)) 20000)) ∧
    (∀ m : ℚ, maxHealthOf m = max 200 (min 3000 ((⌊m * 10⌋ : ℤ) : ℚ))) ∧
    (∀ (idb : Nat) (v : ℚ) (p : Vec3),
      (mkBuildingBody idb v p).health = maxHealthOf (storedMassOf v)) ∧
    b100.storedMass = 100 ∧ b100.maxHealth = 1000 ∧ b100.health = 1000 ∧
    (damageBuilding b100 1200 none 0 ⟨0, 0, 0⟩ []).1.health = -200 ∧
    (damageBuilding b100 1200 none 0 ⟨0, 0, 0⟩ []).1.isActivated = false ∧
    (damageBuilding b100 1200 none 0 ⟨0, 0, 0⟩ []).1.btype = BodyType.KINEMATIC ∧
    (damageBuilding b100 1200 none 0 ⟨0, 0, 0⟩ []).2 = [b100.id] ∧
    b5000.storedMass = 5000 ∧ b5000.maxHealth = 3000 ∧ b5000.health = 3000 ∧
    c8hit1.1.health = 1800 ∧ c8hit1.2 = [] ∧ c8hit1.1.isActivated = true ∧
    c8hit2.1.health = 600 ∧ c8hit2.2 = [] ∧
    c8hit3.1.health = -600 ∧ c8hit3.2 = [b5000.id] := by
  have hb100 : b100.health = 1000 := by
    norm_num [b100, mkBuildingBody, storedMassOf, maxHealthOf]
  have hb5000 : b5000.health = 3000 := by
    norm_num [b5000, mkBuildingBody, storedMassOf, maxHealthOf]
  have h1 : c8hit1.1.health = 1800 := by
    rw [c8hit1, damageBuilding_health, hb5000]; norm_num
  have h1q : c8hit1.2 = [] := by
    rw [c8hit1]
    exact damageBuilding_survive_queue _ _ _ _ _ _ (by rw [hb5000]; norm_num)
  have h2 : c8hit2.1.health = 600 := by
    rw [c8hit2, damageBuilding_health, h1]; norm_num
  have h2q : c8hit2.2 = [] := by
    rw [c8hit2, damageBuilding_survive_queue _ _ _ _ _ _ (by rw [h1]; norm_num)]
    exact h1q
  have h3 : c8hit3.1.health = -600 := by
    rw [c8hit3, damageBuilding_health, h2]; norm_num
  have hkill100 : b100.health - 1200 ≤ 0 := by rw [hb100]; norm_num
  refine ⟨fun v => rfl, fun m => rfl, fun idb v p => rfl,
    by norm_num [b100, mkBuildingBody, storedMassOf],
    by norm_num [b100, mkBuildingBody, storedMassOf, maxHealthOf],
    hb100, ?_, ?_, ?_, ?_,
    by norm_num [b5000, mkBuildingBody, storedMassOf],
    by norm_num [b5000, mkBuildingBody, storedMassOf, maxHealthOf],
    hb5000, h1, h1q, ?_,
    h2, h2q, h3, ?_⟩
  · rw [damageBuilding_health, hb100]; norm_num
  · rw [damageBuilding_kill _ _ _ _ _ _ hkill100]; rfl
  · rw [damageBuilding_kill _ _ _ _ _ _ hkill100]; rfl
  · rw [damageBuilding_kill _ _ _ _ _ _ hkill100]; rfl
  · rw [c8hit1]
    exact damageBuilding_survive_isActivated _ _ _ _ _ _ (by rw [hb5000]; norm_num)
  · rw [c8hit3, damageBuilding_kill _ _ _ _ _ _ (by rw [h2]; norm_num), h2q]
    have : c8hit2.1.id = b5000.id := by
      rw [c8hit2, c8hit1]
      rw [damageBuilding_id, damageBuilding_id]
    rw [this]
    rfl

/-- C9 (confirmed).  Wave height is non-negative at every tick (the constructor
starts it at 1 and `update` either adds 0.5 or multiplies by 0.9999), and the
`done()` predicate holds exactly when the wave has left the domain
(`x > size + 1`) or its height has dropped below the epsilon 0.05. -/
theorem wave_height_nonneg_done_iff (w : Wave) (sz r1 r2 r3 r4 r5 : ℚ)
    (h0 : 0 ≤ w.height) :
    0 ≤ (waveUpdate w).height ∧
    (waveDone w = true ↔ (w.x > w.size + 1 ∨ w.height < 1/20)) ∧
    (mkWave sz r1 r2 r3 r4 r5).height = 1 := by
  refine ⟨?_, ?_, rfl⟩
  · show (0:ℚ) ≤ if w.growing then w.height + 1/2 else w.height * (9999/10000)
    split
    · linarith
    · positivity
  · simp [waveDone]

/-- Witness for C9 at a concrete wave. -/
theorem wave_height_nonneg_done_iff_witness :
    0 ≤ (waveUpdate cexWaveA).height ∧
    (waveDone cexWaveA = true ↔
      (cexWaveA.x > cexWaveA.size + 1 ∨ cexWaveA.height < 1/20)) ∧
    (mkWave 500 0 0 0 0 0).height = 1 :=
  wave_height_nonneg_done_iff cexWaveA 500 0 0 0 0 0
    (by norm_num [cexWaveA])

/-- C10 (confirmed).  Damaging a building whose stored health is already ≤ 0
(already queued, before the frame-end sweep) only appends another entry to the
removal queue — no activation, no velocity change, no impulse — and the sweep,
being a total function that pops until the queue is empty, still terminates,
empties the queue, and leaves neither the World list nor the `buildings` list
containing the body, even though it was enqueued at least twice. -/
theorem damage_dead_building_idempotent_sweep (b : Body) (d : ℚ)
    (i : Option (Vec3 × Vec3)) (s : ℚ) (k : Vec3) (q world bldgs : List Nat)
    (hdead : b.health ≤ 0) (hd : 0 ≤ d) (hq : b.id ∈ q)
    (hw : world.count b.id ≤ 1) (hb : bldgs.count b.id ≤ 1) :
    (damageBuilding b d i s k q).2 = q ++ [b.id] ∧
    2 ≤ ((damageBuilding b d i s k q).2).count b.id ∧
    (damageBuilding b d i s k q).1.isActivated = b.isActivated ∧
    (damageBuilding b d i s k q).1.velocity = b.velocity ∧
    (damageBuilding b d i s k q).1.appliedImpulses = b.appliedImpulses ∧
    (processBuildingRemoval
      ⟨world, bldgs, (damageBuilding b d i s k q).2⟩).buildingsToRemove = [] ∧
    b.id ∉ (processBuildingRemoval
      ⟨world, bldgs, (damageBuilding b d i s k q).2⟩).worldBodies ∧
    b.id ∉ (processBuildingRemoval
      ⟨world, bldgs, (damageBuilding b d i s k q).2⟩).buildings := by
  have hkill : b.health - d ≤ 0 := by linarith
  rw [damageBuilding_kill b d i s k q hkill]
  have hqmem : b.id ∈ q ++ [b.id] := List.mem_append_right _ (List.mem_singleton.mpr rfl)
  refine ⟨rfl, ?_, rfl, rfl, rfl, rfl,
    processBuildingRemoval_world ⟨world, bldgs, q ++ [b.id]⟩ b.id hqmem hw,
    processBuildingRemoval_buildings ⟨world, bldgs, q ++ [b.id]⟩ b.id hqmem hb⟩
  · show 2 ≤ (q ++ [b.id]).count b.id
    have hpos : 0 < q.count b.id := List.count_pos_iff.mpr hq
    have hc : (q ++ [b.id]).count b.id = q.count b.id + 1 := by
      simp [List.count_append]
    omega

/-- Witness for C10: `deadB` (stored health −200, id 1) hit again for 10, with
the id already queued once and present once in each bookkeeping list. -/
theorem damage_dead_building_idempotent_sweep_witness :
    (damageBuilding deadB 10 none 0 ⟨0, 0, 0⟩ [1]).2 = [1] ++ [deadB.id] ∧
    2 ≤ ((damageBuilding deadB 10 none 0 ⟨0, 0, 0⟩ [1]).2).count deadB.id ∧
    (damageBuilding deadB 10 none 0 ⟨0, 0, 0⟩ [1]).1.isActivated = deadB.isActivated ∧
    (damageBuilding deadB 10 none 0 ⟨0, 0, 0⟩ [1]).1.velocity = deadB.velocity ∧
    (damageBuilding deadB 10 none 0 ⟨0, 0, 0⟩ [1]).1.appliedImpulses = deadB.appliedImpulses ∧
    (processBuildingRemoval
      ⟨[1], [1], (damageBuilding deadB 10 none 0 ⟨0, 0, 0⟩ [1]).2⟩).buildingsToRemove = [] ∧
    deadB.id ∉ (processBuildingRemoval
      ⟨[1], [1], (damageBuilding deadB 10 none 0 ⟨0, 0, 0⟩ [1]).2⟩).worldBodies ∧
    deadB.id ∉ (processBuildingRemoval
      ⟨[1], [1], (damageBuilding deadB 10 none 0 ⟨0, 0, 0⟩ [1]).2⟩).buildings := by
  have hid : deadB.id = 1 := by rw [deadB, damageBuilding_id]; rfl
  exact damage_dead_building_idempotent_sweep deadB 10 none 0 ⟨0, 0, 0⟩ [1] [1] [1]
    (by norm_num [deadB, damageBuilding_health, b100, mkBuildingBody, storedMassOf,
      maxHealthOf])
    (by norm_num) (by rw [hid]; simp) (by rw [hid]; simp) (by rw [hid]; simp)

end SimulWave
